import Mathlib

/-!
Verification of the AutoPR Brain-agent orchestration core
(`autopr/agents/brain_agent/base.py`).

The source is a single class `BrainAgentBase` with:
  * `__init__`, which stores eight collaborator handles, builds a logger,
    and logs a warning when unused keyword options are passed;
  * `generate_pr(event)`, the public orchestration entry point;
  * `_generate_pr(event)`, the abstract extension point, raising
    `NotImplementedError` in the base class.

We embed `generate_pr` as a pure function from the agent, the behaviors of
the collaborator calls it makes, and the event, to the trace of collaborator
calls it performs together with its outcome (normal return or raised error).
Collaborator services themselves are external to this repository and are
modelled as opaque handles; the one piece of their state the orchestrator
reads, `rail_service.completions_repo.model`, is carried explicitly.

A Python `raise` can carry any `BaseException`; the `except Exception`
clause in `generate_pr` only catches errors whose class derives from
`Exception`.  Errors therefore carry an `isExceptionSubclass` flag.
-/

namespace AutoPR

/-- The triggering event (`EventUnion` in the source, defined outside this
file's repository slice). The orchestrator treats it as an opaque value, so
we model it as a tag plus an opaque payload identifier. -/
structure Event where
  kind : String
  payloadId : Nat
deriving DecidableEq, Repr

/-- A Python error object: an identity, a message, and whether its class
derives from `Exception` (as opposed to a bare `BaseException` such as
`KeyboardInterrupt` or `SystemExit`, which `except Exception` does not
catch). -/
structure Err where
  eid : Nat
  msg : String
  isExceptionSubclass : Bool
deriving DecidableEq, Repr

/-- The completions repository held by the rail service; `generate_pr` reads
its `model` field for the advisory guard. -/
structure CompletionsRepo where
  model : String
deriving DecidableEq, Repr

/-- The rail (inference) service collaborator; only its
`completions_repo.model` is read at this layer. -/
structure RailService where
  completions_repo : CompletionsRepo
deriving DecidableEq, Repr

/-- Opaque collaborator handle: chain service. -/
structure ChainService where
  handle : Nat
deriving DecidableEq, Repr

/-- Opaque collaborator handle: diff service. -/
structure DiffService where
  handle : Nat
deriving DecidableEq, Repr

/-- Opaque collaborator handle: code generation agent. -/
structure CodegenAgent where
  handle : Nat
deriving DecidableEq, Repr

/-- Opaque collaborator handle: pull request agent. -/
structure PullRequestAgent where
  handle : Nat
deriving DecidableEq, Repr

/-- Opaque collaborator handle: commit service. -/
structure CommitService where
  handle : Nat
deriving DecidableEq, Repr

/-- Opaque collaborator handle: publish service (its methods' behaviors are
supplied separately in `Behaviors`). -/
structure PublishService where
  handle : Nat
deriving DecidableEq, Repr

/-- Opaque collaborator handle: git repository. -/
structure Repo where
  handle : Nat
deriving DecidableEq, Repr

/-- The orchestrator's stored state: the class identifier tag and the eight
collaborator handles assigned in `__init__`. -/
structure BrainAgentBase where
  id : String
  rail_service : RailService
  chain_service : ChainService
  diff_service : DiffService
  codegen_agent : CodegenAgent
  pull_request_agent : PullRequestAgent
  commit_service : CommitService
  publish_service : PublishService
  repo : Repo
deriving DecidableEq, Repr

/-- One collaborator call made by the orchestration layer itself.  Log calls
go through the structlog logger; publish calls go through the publish
service; `run_generation` marks the dispatch to the `_generate_pr`
extension point. -/
inductive Action where
  | update : Action
  | publish_update : String → Action
  | log_info : String → Event → Action
  | log_exception : String → Event → Err → Action
  | run_generation : Event → Action
  | finalize : Bool → Action
  | log_warning : String → Action
deriving DecidableEq, Repr

/-- Outcome of a call: normal return or a raised error. -/
inductive PyResult where
  | normal : PyResult
  | raised : Err → PyResult
deriving DecidableEq, Repr

/-- The behaviors of the calls `generate_pr` makes: each publish-service
method either returns normally (`none`) or raises (`some e`); `generate` is
the behavior of the `_generate_pr` extension point on each event.  The
structlog logger methods are modelled as total (the spec treats logger
failures as out of scope). -/
structure Behaviors where
  update : Option Err
  publish_update : Option Err
  finalize : Bool → Option Err
  generate : Event → Option Err

/-- Result of one `generate_pr` invocation: the trace of collaborator calls
made by `generate_pr` itself (in order), the outcome, and the orchestrator
state and event value after the call (threaded explicitly to express the
frame property: the source assigns to neither). -/
structure GenerateResult where
  trace : List Action
  result : PyResult
  self_after : BrainAgentBase
  event_after : Event
deriving Repr

/-- The literal advisory message published when the configured model is
`gpt-3.5-turbo` (adjacent string literals in the source concatenate). -/
def gpt35_warning : String :=
  "⚠️⚠️⚠️ Warning: Using `gpt-3.5-turbo` completion model. " ++
  "AutoPR is currently not optimized for this model. " ++
  "See https://github.com/irgolic/AutoPR/issues/65 for more details. " ++
  "In the mean time, if you have access to the `gpt-4` API, please use that instead. " ++
  "Please note that ChatGPT Plus does not give you access to the `gpt-4` API; " ++
  "you need to sign up on [the GPT-4 API waitlist](https://openai.com/waitlist/gpt-4-api). "

/-- Embedding of `BrainAgentBase.generate_pr`.  Step by step:
1. `self.publish_service.update()` — outside any `try`, so if it raises the
   error propagates at once;
2. if `self.rail_service.completions_repo.model == "gpt-3.5-turbo"`, call
   `self.publish_service.publish_update(gpt35_warning)` — also unprotected;
3. `self.log.info("Generating changes", event_=event)`;
4. `try: self._generate_pr(event)`; `except Exception as e:` (catches only
   errors deriving from `Exception`) log the exception with the event, call
   `self.publish_service.finalize(success=False)` (if that raises, its error
   replaces the original), and `raise e`;
5. on normal return, `self.log.info("Generated changes", event_=event)` and
   `self.publish_service.finalize(success=True)`.
A method call is recorded in the trace at the moment it is made, whether or
not it then raises. -/
def generate_pr (self : BrainAgentBase) (b : Behaviors) (event : Event) :
    GenerateResult :=
  match b.update with
  | some e => ⟨[Action.update], PyResult.raised e, self, event⟩
  | none =>
    let warn_trace : List Action :=
      if self.rail_service.completions_repo.model = "gpt-3.5-turbo" then
        [Action.publish_update gpt35_warning]
      else []
    let warn_result : Option Err :=
      if self.rail_service.completions_repo.model = "gpt-3.5-turbo" then
        b.publish_update
      else none
    match warn_result with
    | some e => ⟨Action.update :: warn_trace, PyResult.raised e, self, event⟩
    | none =>
      let t0 : List Action :=
        Action.update :: warn_trace ++
          [Action.log_info "Generating changes" event,
           Action.run_generation event]
      match b.generate event with
      | some e =>
        if e.isExceptionSubclass then
          let t1 : List Action :=
            t0 ++ [Action.log_exception "Failed to generate pull request" event e,
                   Action.finalize false]
          match b.finalize false with
          | some e2 => ⟨t1, PyResult.raised e2, self, event⟩
          | none => ⟨t1, PyResult.raised e, self, event⟩
        else
          ⟨t0, PyResult.raised e, self, event⟩
      | none =>
        let t1 : List Action :=
          t0 ++ [Action.log_info "Generated changes" event,
                 Action.finalize true]
        match b.finalize true with
        | some e2 => ⟨t1, PyResult.raised e2, self, event⟩
        | none => ⟨t1, PyResult.normal, self, event⟩

/-- The error raised by the base-class extension point: `NotImplementedError`
derives from `RuntimeError`, hence from `Exception`. -/
def NotImplementedError : Err := ⟨0, "NotImplementedError", true⟩

/-- Embedding of the base-class `BrainAgentBase._generate_pr`: it
unconditionally executes `raise NotImplementedError`. -/
def base_generate_pr (_event : Event) : Option Err :=
  some NotImplementedError

/-- Embedding of `BrainAgentBase.__init__` for a concrete subtype with class
tag `tag`: stores the eight collaborator handles, then logs a warning if and
only if the extra keyword-options bag is non-empty.  No operation in the
body can raise, so the embedding is a total function returning the
constructed state and the log trace. -/
def BrainAgentBase.init (tag : String) (rail_service : RailService)
    (chain_service : ChainService) (diff_service : DiffService)
    (codegen_agent : CodegenAgent) (pull_request_agent : PullRequestAgent)
    (commit_service : CommitService) (publish_service : PublishService)
    (repo : Repo) (kwargs : List (String × String)) :
    BrainAgentBase × List Action :=
  (⟨tag, rail_service, chain_service, diff_service, codegen_agent,
     pull_request_agent, commit_service, publish_service, repo⟩,
   if kwargs = [] then []
   else [Action.log_warning "Brain did not use additional options"])

/-- Number of placeholder-publish calls (`publish_service.update`) in a
trace. -/
def count_update : List Action → Nat
  | [] => 0
  | Action.update :: t => count_update t + 1
  | _ :: t => count_update t

/-- Number of advisory-publish calls (`publish_service.publish_update`,
with any message) in a trace. -/
def count_publish_update : List Action → Nat
  | [] => 0
  | Action.publish_update _ :: t => count_publish_update t + 1
  | _ :: t => count_publish_update t

/-- Number of `publish_service.finalize` calls with the given success flag
in a trace. -/
def count_finalize (s : Bool) : List Action → Nat
  | [] => 0
  | Action.finalize s2 :: t => (if s = s2 then 1 else 0) + count_finalize s t
  | _ :: t => count_finalize s t

/-- Number of dispatches to the `_generate_pr` extension point in a trace. -/
def count_run_generation : List Action → Nat
  | [] => 0
  | Action.run_generation _ :: t => count_run_generation t + 1
  | _ :: t => count_run_generation t

/-- Number of exception-level log calls (with any content) in a trace. -/
def count_log_exception : List Action → Nat
  | [] => 0
  | Action.log_exception _ _ _ :: t => count_log_exception t + 1
  | _ :: t => count_log_exception t

/-! Concrete sample values used to instantiate the theorems below. -/

/-- A sample triggering event. -/
def sample_event : Event := ⟨"issue_opened", 42⟩

/-- An orchestrator configured with the `gpt-4` model. -/
def gpt4_agent : BrainAgentBase :=
  ⟨"base", ⟨⟨"gpt-4"⟩⟩, ⟨1⟩, ⟨2⟩, ⟨3⟩, ⟨4⟩, ⟨5⟩, ⟨6⟩, ⟨7⟩⟩

/-- An orchestrator configured with the sentinel `gpt-3.5-turbo` model. -/
def gpt35_agent : BrainAgentBase :=
  ⟨"base", ⟨⟨"gpt-3.5-turbo"⟩⟩, ⟨1⟩, ⟨2⟩, ⟨3⟩, ⟨4⟩, ⟨5⟩, ⟨6⟩, ⟨7⟩⟩

/-- A sample ordinary exception raised by a collaborator. -/
def diff_failed : Err := ⟨3, "diff failed", true⟩

/-- A sample error that does not derive from `Exception`. -/
def keyboard_interrupt : Err := ⟨1, "KeyboardInterrupt", false⟩

/-- A sample ordinary exception raised by a publish call. -/
def io_error : Err := ⟨2, "IOError", true⟩

/-- A sample ordinary exception raised by the finalize call. -/
def finalize_failed : Err := ⟨4, "finalize failed", true⟩

/-- Behaviors in which every collaborator call returns normally. -/
def ok_behaviors : Behaviors := ⟨none, none, fun _ => none, fun _ => none⟩

/-- Behaviors in which `_generate_pr` raises `diff_failed` and every other
call returns normally. -/
def fail_behaviors : Behaviors :=
  ⟨none, none, fun _ => none, fun _ => some diff_failed⟩

/-- Behaviors in which `_generate_pr` raises `keyboard_interrupt` (which
does not derive from `Exception`) and every other call returns normally. -/
def bypass_behaviors : Behaviors :=
  ⟨none, none, fun _ => none, fun _ => some keyboard_interrupt⟩

/-- Behaviors in which the placeholder publish itself raises. -/
def update_raising_behaviors : Behaviors :=
  ⟨some io_error, none, fun _ => none, fun _ => none⟩

/-- Behaviors in which `_generate_pr` raises `diff_failed` and the
failure-path `finalize(success=False)` call raises `finalize_failed`. -/
def finalize_raising_behaviors : Behaviors :=
  ⟨none, none, fun s => if s then none else some finalize_failed,
   fun _ => some diff_failed⟩

/-- Behaviors of an orchestrator whose subtype does not override
`_generate_pr`: the extension point is the base-class one. -/
def base_behaviors : Behaviors :=
  ⟨none, none, fun _ => none, base_generate_pr⟩

/-- Claim C2: for every event and every behavior of the `_generate_pr`
extension point that returns normally (other collaborator calls returning
normally), `generate_pr` calls the placeholder publish exactly once, then
`finalize(success=True)` exactly once, in that order, and returns
normally. -/
theorem generate_pr_success_path (self : BrainAgentBase) (b : Behaviors)
    (event : Event) (hupd : b.update = none) (hadv : b.publish_update = none)
    (hfin : b.finalize true = none) (hgen : b.generate event = none) :
    count_update (generate_pr self b event).trace = 1 ∧
    count_finalize true (generate_pr self b event).trace = 1 ∧
    count_finalize false (generate_pr self b event).trace = 0 ∧
    List.Sublist [Action.update, Action.finalize true] (generate_pr self b event).trace ∧
    (generate_pr self b event).result = PyResult.normal := by
  by_cases hm : self.rail_service.completions_repo.model = "gpt-3.5-turbo" <;>
    simp [generate_pr, hm, hupd, hadv, hgen, hfin,
      count_update, count_finalize, List.singleton_sublist]

/-- Witness for C2 at concrete inputs. -/
theorem generate_pr_success_path_witness :
    ok_behaviors.update = none ∧ ok_behaviors.publish_update = none ∧
    ok_behaviors.finalize true = none ∧
    ok_behaviors.generate sample_event = none ∧
    (count_update (generate_pr gpt4_agent ok_behaviors sample_event).trace = 1 ∧
     count_finalize true (generate_pr gpt4_agent ok_behaviors sample_event).trace = 1 ∧
     count_finalize false (generate_pr gpt4_agent ok_behaviors sample_event).trace = 0 ∧
     List.Sublist [Action.update, Action.finalize true]
       (generate_pr gpt4_agent ok_behaviors sample_event).trace ∧
     (generate_pr gpt4_agent ok_behaviors sample_event).result = PyResult.normal) :=
  ⟨rfl, rfl, rfl, rfl,
   generate_pr_success_path gpt4_agent ok_behaviors sample_event rfl rfl rfl rfl⟩

/-- Claim C1: for every event and every behavior of the `_generate_pr`
extension point that raises an ordinary error `X` (other collaborator calls
returning normally), `generate_pr` calls the placeholder publish exactly
once, then `finalize(success=False)` exactly once, in that order, and then
raises `X` unchanged — the same error object, never a wrapped or different
error. -/
theorem generate_pr_failure_path (self : BrainAgentBase) (b : Behaviors)
    (event : Event) (X : Err) (hupd : b.update = none)
    (hadv : b.publish_update = none) (hfin : b.finalize false = none)
    (hgen : b.generate event = some X) (hX : X.isExceptionSubclass = true) :
    count_update (generate_pr self b event).trace = 1 ∧
    count_finalize false (generate_pr self b event).trace = 1 ∧
    count_finalize true (generate_pr self b event).trace = 0 ∧
    List.Sublist [Action.update, Action.finalize false] (generate_pr self b event).trace ∧
    (generate_pr self b event).result = PyResult.raised X := by
  by_cases hm : self.rail_service.completions_repo.model = "gpt-3.5-turbo" <;>
    simp [generate_pr, hm, hupd, hadv, hgen, hX, hfin,
      count_update, count_finalize, List.singleton_sublist]

/-- Witness for C1 at concrete inputs. -/
theorem generate_pr_failure_path_witness :
    fail_behaviors.update = none ∧ fail_behaviors.publish_update = none ∧
    fail_behaviors.finalize false = none ∧
    fail_behaviors.generate sample_event = some diff_failed ∧
    diff_failed.isExceptionSubclass = true ∧
    (count_update (generate_pr gpt4_agent fail_behaviors sample_event).trace = 1 ∧
     count_finalize false (generate_pr gpt4_agent fail_behaviors sample_event).trace = 1 ∧
     count_finalize true (generate_pr gpt4_agent fail_behaviors sample_event).trace = 0 ∧
     List.Sublist [Action.update, Action.finalize false]
       (generate_pr gpt4_agent fail_behaviors sample_event).trace ∧
     (generate_pr gpt4_agent fail_behaviors sample_event).result =
       PyResult.raised diff_failed) :=
  ⟨rfl, rfl, rfl, rfl, rfl,
   generate_pr_failure_path gpt4_agent fail_behaviors sample_event diff_failed
     rfl rfl rfl rfl rfl⟩

/-- Claim C8: `generate_pr` never mutates the event it receives and never
reassigns any of the orchestrator's stored collaborator handles: for every
event and every behavior of every collaborator call, the orchestrator state
and the event value after the call equal the ones before, and in particular
all eight handle fields are unchanged. -/
theorem generate_pr_frame (self : BrainAgentBase) (b : Behaviors)
    (event : Event) :
    (generate_pr self b event).self_after = self ∧
    (generate_pr self b event).event_after = event ∧
    (generate_pr self b event).self_after.rail_service = self.rail_service ∧
    (generate_pr self b event).self_after.chain_service = self.chain_service ∧
    (generate_pr self b event).self_after.diff_service = self.diff_service ∧
    (generate_pr self b event).self_after.codegen_agent = self.codegen_agent ∧
    (generate_pr self b event).self_after.pull_request_agent = self.pull_request_agent ∧
    (generate_pr self b event).self_after.commit_service = self.commit_service ∧
    (generate_pr self b event).self_after.publish_service = self.publish_service ∧
    (generate_pr self b event).self_after.repo = self.repo := by
  have h : (generate_pr self b event).self_after = self ∧
      (generate_pr self b event).event_after = event := by
    unfold generate_pr
    repeat' first
      | exact ⟨rfl, rfl⟩
      | split
    all_goals cases hb : b.publish_update <;> exact ⟨rfl, rfl⟩
  exact ⟨h.1, h.2, by rw [h.1], by rw [h.1], by rw [h.1], by rw [h.1],
    by rw [h.1], by rw [h.1], by rw [h.1], by rw [h.1]⟩

/-- Claim C3: in every invocation of `generate_pr` (the orchestrator's own
publish calls returning normally, extension-point failures being ordinary
exceptions, the finalize call's behavior arbitrary), exactly one finalize
signal is emitted — with flag `success=True` exactly when `_generate_pr`
returned normally — after exactly one placeholder publish and never before
it, and the `_generate_pr` dispatch happens after the placeholder publish
and before the terminal finalize. -/
theorem generate_pr_ordering (self : BrainAgentBase) (b : Behaviors)
    (event : Event) (hupd : b.update = none) (hadv : b.publish_update = none)
    (hexc : ∀ X, b.generate event = some X → X.isExceptionSubclass = true) :
    count_update (generate_pr self b event).trace = 1 ∧
    count_run_generation (generate_pr self b event).trace = 1 ∧
    count_finalize true (generate_pr self b event).trace +
      count_finalize false (generate_pr self b event).trace = 1 ∧
    List.Sublist
      [Action.update, Action.run_generation event,
        Action.finalize (b.generate event).isNone]
      (generate_pr self b event).trace := by
  cases hg : b.generate event with
  | none =>
    by_cases hm : self.rail_service.completions_repo.model = "gpt-3.5-turbo" <;>
      cases hf : b.finalize true <;>
        simp [generate_pr, hm, hupd, hadv, hg, hf,
          count_update, count_run_generation, count_finalize]
  | some X =>
    have hX := hexc X hg
    by_cases hm : self.rail_service.completions_repo.model = "gpt-3.5-turbo" <;>
      cases hf : b.finalize false <;>
        simp [generate_pr, hm, hupd, hadv, hg, hf, hX,
          count_update, count_run_generation, count_finalize]

/-- Witness for C3 at concrete inputs. -/
theorem generate_pr_ordering_witness :
    ok_behaviors.update = none ∧ ok_behaviors.publish_update = none ∧
    (∀ X, ok_behaviors.generate sample_event = some X →
      X.isExceptionSubclass = true) ∧
    (count_update (generate_pr gpt4_agent ok_behaviors sample_event).trace = 1 ∧
     count_run_generation (generate_pr gpt4_agent ok_behaviors sample_event).trace = 1 ∧
     count_finalize true (generate_pr gpt4_agent ok_behaviors sample_event).trace +
       count_finalize false (generate_pr gpt4_agent ok_behaviors sample_event).trace = 1 ∧
     List.Sublist
       [Action.update, Action.run_generation sample_event,
         Action.finalize (ok_behaviors.generate sample_event).isNone]
       (generate_pr gpt4_agent ok_behaviors sample_event).trace) :=
  ⟨rfl, rfl, fun _ h => Option.noConfusion h,
   generate_pr_ordering gpt4_agent ok_behaviors sample_event rfl rfl
     (fun _ h => Option.noConfusion h)⟩

/-- Claim C4: if the configured model identifier is exactly
`"gpt-3.5-turbo"`, exactly one advisory publish call occurs, after the
placeholder publish and before `_generate_pr` is dispatched; for any other
model identifier, zero advisory publish calls occur.  The guard is a pure
string-equality check, so the two cases are distinguished only by
`self.rail_service.completions_repo.model`. -/
theorem generate_pr_gpt35_advisory (self : BrainAgentBase) (b : Behaviors)
    (event : Event) (hupd : b.update = none) (hadv : b.publish_update = none) :
    (self.rail_service.completions_repo.model = "gpt-3.5-turbo" →
      count_publish_update (generate_pr self b event).trace = 1 ∧
      List.Sublist
        [Action.update, Action.publish_update gpt35_warning,
          Action.run_generation event]
        (generate_pr self b event).trace) ∧
    (self.rail_service.completions_repo.model ≠ "gpt-3.5-turbo" →
      count_publish_update (generate_pr self b event).trace = 0) := by
  constructor
  · intro hm
    cases hg : b.generate event with
    | none =>
      cases hf : b.finalize true <;>
        simp [generate_pr, hm, hupd, hadv, hg, hf, count_publish_update]
    | some X =>
      cases hX : X.isExceptionSubclass <;> cases hf : b.finalize false <;>
        simp [generate_pr, hm, hupd, hadv, hg, hf, hX, count_publish_update]
  · intro hm
    cases hg : b.generate event with
    | none =>
      cases hf : b.finalize true <;>
        simp [generate_pr, hm, hupd, hadv, hg, hf, count_publish_update]
    | some X =>
      cases hX : X.isExceptionSubclass <;> cases hf : b.finalize false <;>
        simp [generate_pr, hm, hupd, hadv, hg, hf, hX, count_publish_update]

/-- Witness for C4 at concrete inputs (sentinel model). -/
theorem generate_pr_gpt35_advisory_witness :
    ok_behaviors.update = none ∧ ok_behaviors.publish_update = none ∧
    ((gpt35_agent.rail_service.completions_repo.model = "gpt-3.5-turbo" →
       count_publish_update (generate_pr gpt35_agent ok_behaviors sample_event).trace = 1 ∧
       List.Sublist
         [Action.update, Action.publish_update gpt35_warning,
           Action.run_generation sample_event]
         (generate_pr gpt35_agent ok_behaviors sample_event).trace) ∧
     (gpt35_agent.rail_service.completions_repo.model ≠ "gpt-3.5-turbo" →
       count_publish_update (generate_pr gpt35_agent ok_behaviors sample_event).trace = 0)) :=
  ⟨rfl, rfl,
   generate_pr_gpt35_advisory gpt35_agent ok_behaviors sample_event rfl rfl⟩

/-- Claim C5: constructing the orchestrator with any extra keyword-options
bag never raises (the embedding of `__init__` is a total function): the
constructed state stores all eight collaborator handles as passed, and the
warning "Brain did not use additional options" is logged exactly when the
bag is non-empty. -/
theorem brain_agent_init_never_raises (tag : String) (rs : RailService)
    (cs : ChainService) (ds : DiffService) (ca : CodegenAgent)
    (pa : PullRequestAgent) (ms : CommitService) (ps : PublishService)
    (r : Repo) (kwargs : List (String × String)) :
    (BrainAgentBase.init tag rs cs ds ca pa ms ps r kwargs).1 =
      ⟨tag, rs, cs, ds, ca, pa, ms, ps, r⟩ ∧
    (BrainAgentBase.init tag rs cs ds ca pa ms ps r kwargs).2 =
      (if kwargs = [] then []
       else [Action.log_warning "Brain did not use additional options"]) :=
  ⟨rfl, rfl⟩

/-- Claim C9: the base-class extension point unconditionally raises
`NotImplementedError`, so calling `generate_pr` on an orchestrator whose
subtype does not override `_generate_pr` (other collaborator calls
returning normally) always calls `finalize(success=False)` and propagates
`NotImplementedError` to the caller, for every event. -/
theorem generate_pr_base_not_implemented (self : BrainAgentBase)
    (b : Behaviors) (event : Event) (hb : b.generate = base_generate_pr)
    (hupd : b.update = none) (hadv : b.publish_update = none)
    (hfin : b.finalize false = none) :
    base_generate_pr event = some NotImplementedError ∧
    count_finalize false (generate_pr self b event).trace = 1 ∧
    count_finalize true (generate_pr self b event).trace = 0 ∧
    (generate_pr self b event).result = PyResult.raised NotImplementedError := by
  have hg : b.generate event = some NotImplementedError := by rw [hb]; rfl
  by_cases hm : self.rail_service.completions_repo.model = "gpt-3.5-turbo" <;>
    simp [generate_pr, base_generate_pr, hm, hupd, hadv, hg, hfin,
      NotImplementedError, count_finalize]

/-- Witness for C9 at concrete inputs. -/
theorem generate_pr_base_not_implemented_witness :
    base_behaviors.generate = base_generate_pr ∧
    base_behaviors.update = none ∧ base_behaviors.publish_update = none ∧
    base_behaviors.finalize false = none ∧
    (base_generate_pr sample_event = some NotImplementedError ∧
     count_finalize false (generate_pr gpt4_agent base_behaviors sample_event).trace = 1 ∧
     count_finalize true (generate_pr gpt4_agent base_behaviors sample_event).trace = 0 ∧
     (generate_pr gpt4_agent base_behaviors sample_event).result =
       PyResult.raised NotImplementedError) :=
  ⟨rfl, rfl, rfl, rfl,
   generate_pr_base_not_implemented gpt4_agent base_behaviors sample_event
     rfl rfl rfl rfl⟩

/-- Claim C10: if `_generate_pr` raises an ordinary error `X` and the
failure-path `finalize(success=False)` call itself raises `Y`, then
`generate_pr` propagates `Y` to the caller and (whenever `Y` differs from
`X`) the original error `X` is not re-raised. -/
theorem generate_pr_finalize_raise_masks (self : BrainAgentBase)
    (b : Behaviors) (event : Event) (X Y : Err) (hupd : b.update = none)
    (hadv : b.publish_update = none) (hgen : b.generate event = some X)
    (hX : X.isExceptionSubclass = true) (hfin : b.finalize false = some Y) :
    (generate_pr self b event).result = PyResult.raised Y ∧
    (Y ≠ X → (generate_pr self b event).result ≠ PyResult.raised X) := by
  by_cases hm : self.rail_service.completions_repo.model = "gpt-3.5-turbo" <;>
    simp [generate_pr, hm, hupd, hadv, hgen, hX, hfin]

/-- Witness for C10 at concrete inputs. -/
theorem generate_pr_finalize_raise_masks_witness :
    finalize_raising_behaviors.update = none ∧
    finalize_raising_behaviors.publish_update = none ∧
    finalize_raising_behaviors.generate sample_event = some diff_failed ∧
    diff_failed.isExceptionSubclass = true ∧
    finalize_raising_behaviors.finalize false = some finalize_failed ∧
    ((generate_pr gpt4_agent finalize_raising_behaviors sample_event).result =
       PyResult.raised finalize_failed ∧
     (finalize_failed ≠ diff_failed →
       (generate_pr gpt4_agent finalize_raising_behaviors sample_event).result ≠
         PyResult.raised diff_failed)) :=
  ⟨rfl, rfl, rfl, rfl, rfl,
   generate_pr_finalize_raise_masks gpt4_agent finalize_raising_behaviors
     sample_event diff_failed finalize_failed rfl rfl rfl rfl rfl⟩

/-- Counterexample to claim C6 as stated: `_generate_pr` raising an error
that does not derive from `Exception` (here `KeyboardInterrupt`, which
`except Exception` does not catch) bypasses the failure handling entirely —
no exception-level log, no `finalize(success=False)` — and the error
propagates with the published artifact left unfinalized. -/
theorem generate_pr_nonexception_bypass :
    count_finalize false
      (generate_pr gpt4_agent bypass_behaviors sample_event).trace = 0 ∧
    count_finalize true
      (generate_pr gpt4_agent bypass_behaviors sample_event).trace = 0 ∧
    count_log_exception
      (generate_pr gpt4_agent bypass_behaviors sample_event).trace = 0 ∧
    (generate_pr gpt4_agent bypass_behaviors sample_event).result =
      PyResult.raised keyboard_interrupt :=
  ⟨rfl, rfl, rfl, rfl⟩

/-- Claim C6 as amended: for every error `X` raised by `_generate_pr` that
is an instance of `Exception`, `generate_pr` logs exactly one
exception-level event carrying the triggering event and the error,
instructs the publish collaborator to finalize with `success=False`, and
re-propagates `X` unchanged; an error that does not derive from `Exception`
bypasses this failure handling (no exception log, no failure finalize) and
propagates unchanged. -/
theorem generate_pr_exception_only_handling (self : BrainAgentBase)
    (b : Behaviors) (event : Event) (X : Err) (hupd : b.update = none)
    (hadv : b.publish_update = none) (hgen : b.generate event = some X)
    (hfin : b.finalize false = none) :
    (X.isExceptionSubclass = true →
      count_log_exception (generate_pr self b event).trace = 1 ∧
      Action.log_exception "Failed to generate pull request" event X ∈
        (generate_pr self b event).trace ∧
      count_finalize false (generate_pr self b event).trace = 1 ∧
      (generate_pr self b event).result = PyResult.raised X) ∧
    (X.isExceptionSubclass = false →
      count_log_exception (generate_pr self b event).trace = 0 ∧
      count_finalize false (generate_pr self b event).trace = 0 ∧
      (generate_pr self b event).result = PyResult.raised X) := by
  cases hX : X.isExceptionSubclass <;>
    by_cases hm : self.rail_service.completions_repo.model = "gpt-3.5-turbo" <;>
      simp [generate_pr, hm, hupd, hadv, hgen, hfin, hX,
        count_log_exception, count_finalize]

/-- Witness for the amended C6 at concrete inputs. -/
theorem generate_pr_exception_only_handling_witness :
    fail_behaviors.update = none ∧ fail_behaviors.publish_update = none ∧
    fail_behaviors.generate sample_event = some diff_failed ∧
    fail_behaviors.finalize false = none ∧
    ((diff_failed.isExceptionSubclass = true →
       count_log_exception (generate_pr gpt4_agent fail_behaviors sample_event).trace = 1 ∧
       Action.log_exception "Failed to generate pull request" sample_event diff_failed ∈
         (generate_pr gpt4_agent fail_behaviors sample_event).trace ∧
       count_finalize false (generate_pr gpt4_agent fail_behaviors sample_event).trace = 1 ∧
       (generate_pr gpt4_agent fail_behaviors sample_event).result =
         PyResult.raised diff_failed) ∧
     (diff_failed.isExceptionSubclass = false →
       count_log_exception (generate_pr gpt4_agent fail_behaviors sample_event).trace = 0 ∧
       count_finalize false (generate_pr gpt4_agent fail_behaviors sample_event).trace = 0 ∧
       (generate_pr gpt4_agent fail_behaviors sample_event).result =
         PyResult.raised diff_failed)) :=
  ⟨rfl, rfl, rfl, rfl,
   generate_pr_exception_only_handling gpt4_agent fail_behaviors sample_event
     diff_failed rfl rfl rfl rfl⟩

/-- Counterexample to claim C7 as stated: when the placeholder publish call
itself raises, `generate_pr` propagates that error at once and `finalize`
is never called — zero finalize signals with either flag — so on this exit
path the artifact is left without a terminal signal. -/
theorem generate_pr_update_raise_no_finalize :
    count_finalize true
      (generate_pr gpt4_agent update_raising_behaviors sample_event).trace = 0 ∧
    count_finalize false
      (generate_pr gpt4_agent update_raising_behaviors sample_event).trace = 0 ∧
    (generate_pr gpt4_agent update_raising_behaviors sample_event).result =
      PyResult.raised io_error :=
  ⟨rfl, rfl, rfl⟩

/-- Claim C7 as amended: on every exit path of `generate_pr` on which the
placeholder publish and the advisory publish return normally and any error
raised by `_generate_pr` derives from `Exception`, `finalize` is called
exactly once with the correct success flag (`True` exactly when
`_generate_pr` returned normally), even when the finalize call itself
raises; if the placeholder or advisory publish raises, that error
propagates with no finalize call. -/
theorem generate_pr_finalize_exactly_once (self : BrainAgentBase)
    (b : Behaviors) (event : Event) (hupd : b.update = none)
    (hadv : b.publish_update = none)
    (hexc : ∀ X, b.generate event = some X → X.isExceptionSubclass = true) :
    count_finalize (b.generate event).isNone
      (generate_pr self b event).trace = 1 ∧
    count_finalize (!(b.generate event).isNone)
      (generate_pr self b event).trace = 0 := by
  cases hg : b.generate event with
  | none =>
    by_cases hm : self.rail_service.completions_repo.model = "gpt-3.5-turbo" <;>
      cases hf : b.finalize true <;>
        simp [generate_pr, hm, hupd, hadv, hg, hf, count_finalize]
  | some X =>
    have hX := hexc X hg
    by_cases hm : self.rail_service.completions_repo.model = "gpt-3.5-turbo" <;>
      cases hf : b.finalize false <;>
        simp [generate_pr, hm, hupd, hadv, hg, hf, hX, count_finalize]

/-- Witness for the amended C7 at concrete inputs (sentinel model,
normally-returning extension point). -/
theorem generate_pr_finalize_exactly_once_witness :
    ok_behaviors.update = none ∧ ok_behaviors.publish_update = none ∧
    (∀ X, ok_behaviors.generate sample_event = some X →
      X.isExceptionSubclass = true) ∧
    (count_finalize (ok_behaviors.generate sample_event).isNone
       (generate_pr gpt35_agent ok_behaviors sample_event).trace = 1 ∧
     count_finalize (!(ok_behaviors.generate sample_event).isNone)
       (generate_pr gpt35_agent ok_behaviors sample_event).trace = 0) :=
  ⟨rfl, rfl, fun _ h => Option.noConfusion h,
   generate_pr_finalize_exactly_once gpt35_agent ok_behaviors sample_event
     rfl rfl (fun _ h => Option.noConfusion h)⟩

end AutoPR
